import Mathlib

set_option linter.unusedVariables false

/-!
Shallow embedding of the Oracle Vision mint-console front ends.

`MintConsole` embeds the full wallet/mint controller of
`src/unnamed/part_001` (state hooks, `push` ring log, `humanizeEthersError`,
`loadContractReads`, `connect`, `switchToMainnet`, `mint`).
`RawMint` embeds the simplified raw-transaction page of
`src/app/mint/page.tsx` (first document, lines 1-266), whose `mint` sends a
bare `eth_sendTransaction`.
`MultiSig` embeds the multi-signature mint of `src/app/mint/page.tsx`
(third document), which tries four method signatures in sequence.

Asynchronous provider responses are modelled as explicit outcome values fed
to each operation; every operation returns the successor state together with
the list of provider interactions it issued, in order.  The impure clock
(`new Date().toISOString()`) is modelled as a natural-number counter `now`
stored in the state and stamped onto each log entry.
-/

namespace MintConsole

/-- Timestamped log entry: models `\x7b t: string; msg: string \x7d` with the
ISO timestamp replaced by the counter clock. -/
structure Entry where
  t : Nat
  msg : String
deriving DecidableEq

/-- The React state of `MintPage` in `src/unnamed/part_001`. -/
structure St where
  hasProvider : Bool
  account : Option String
  chainId : Option String
  collectionName : String
  symbol : String
  mintPriceWei : Option Nat
  busy : Bool
  txHash : Option String
  log : List Entry
  now : Nat
deriving DecidableEq

/-- JavaScript truthiness of a nullable string: `null`/`undefined` and the
empty string are falsy. -/
def truthy : Option String → Bool
  | some x => !(x = "")
  | none => false

/-- Embeds `const isConnected = !!account` (line 55). -/
def isConnected (account : Option String) : Bool :=
  truthy account

/-- ASCII-wise lowercasing, the model of `String.prototype.toLowerCase` on
the hex / message strings this code compares. -/
def toLowerStr (s : String) : String :=
  String.mk (s.toList.map Char.toLower)

/-- Embeds `const isMainnet = chainId?.toLowerCase() === "0x1"` (line 56). -/
def isMainnet (chainId : Option String) : Bool :=
  match chainId with
  | some c => toLowerStr c = "0x1"
  | none => false

/-- Shape of a thrown provider/ethers error as inspected by
`humanizeEthersError`: optional `code`, the optional message fields probed by
the `||` chain, and `String(e)` as final fallback. -/
structure JsError where
  code : Option Int
  shortMessage : Option String
  reason : Option String
  message : Option String
  str : String
deriving DecidableEq

/-- JavaScript `a || b` on an optional string: falls through on
`null`/`undefined` and on the empty string. -/
def jsOr (a : Option String) (b : String) : String :=
  match a with
  | some v => if v = "" then b else v
  | none => b

/-- Embeds `e?.shortMessage || e?.reason || e?.message || String(e)`
(line 85). -/
def errMsg (e : JsError) : String :=
  jsOr e.shortMessage (jsOr e.reason (jsOr e.message e.str))

/-- Tests whether the first character list is an initial segment of the
second. -/
def startsWithChars : List Char → List Char → Bool
  | [], _ => true
  | _ :: _, [] => false
  | a :: as, b :: bs => a = b && startsWithChars as bs

/-- Tests whether `pat` occurs contiguously inside the second list, the
Boolean counterpart of JavaScript `String.prototype.includes`. -/
def containsChars (pat : List Char) : List Char → Bool
  | [] => pat.isEmpty
  | c :: cs => startsWithChars pat (c :: cs) || containsChars pat cs

/-- Embeds `msg.toLowerCase().includes("user rejected")` (line 88). -/
def containsUserRejected (m : String) : Bool :=
  containsChars ("user rejected".toList) (m.toList.map Char.toLower)

/-- Embeds `humanizeEthersError` (lines 84-91). -/
def humanizeEthersError (e : JsError) : String :=
  if e.code = some 4001 then "User rejected the transaction."
  else if containsUserRejected (errMsg e) then "User rejected the transaction."
  else errMsg e

/-- Left-pads a decimal string with zeros up to width `w`. -/
def padLeftZeros (s : String) (w : Nat) : String :=
  String.mk (List.replicate (w - s.length) '0') ++ s

/-- Drops trailing `'0'` characters. -/
def trimTrailingZeros (s : String) : String :=
  String.mk ((s.toList.reverse.dropWhile (fun c => c = '0')).reverse)

/-- Embeds `ethers.formatEther` on a wei amount: integer ether part, a dot,
then the 18-digit fraction with trailing zeros trimmed (at least one digit). -/
def formatEther (wei : Nat) : String :=
  let ip := toString (wei / 1000000000000000000)
  let fr := trimTrailingZeros (padLeftZeros (toString (wei % 1000000000000000000)) 18)
  ip ++ "." ++ (if fr = "" then "0" else fr)

/-- Embeds `shortAddr` (lines 25-28): `—` on a falsy address, otherwise the
first six characters, an ellipsis, and the last four. -/
def shortAddr (addr : Option String) : String :=
  match addr with
  | none => "—"
  | some a =>
      if a = "" then "—"
      else String.mk (a.toList.take 6) ++ "…" ++
           String.mk ((a.toList.reverse.take 4).reverse)

/-- Embeds `push` (lines 80-82): prepend the new entry, keep the first 30. -/
def push (msg : String) (s : St) : St :=
  { s with
      log := ((⟨s.now, msg⟩ : Entry) :: s.log).take 30
      now := s.now + 1 }

/-- Embeds the `status` memo (lines 73-78), the readiness chip text. -/
def statusText (s : St) : String :=
  if !s.hasProvider then "MetaMask not found"
  else if !(isConnected s.account) then "Not connected"
  else if !(isMainnet s.chainId) then "Wrong network (switch to ETH)"
  else "Ready (ETH mainnet)"

/-- Embeds the mint button `disabled` expression (line 382):
`!isConnected || !isMainnet || busy || mintPriceWei == null`. -/
def mintButtonDisabled (s : St) : Bool :=
  !(isConnected s.account) || !(isMainnet s.chainId) || s.busy || s.mintPriceWei.isNone

/-- Provider interactions issued by the controller, in program order.
`submitMint` is the only payable (value-carrying) submission. -/
inductive Call where
  | getSigner
  | readName
  | readSymbol
  | readPrice
  | submitMint (value : Nat)
  | waitReceipt (hash : String)
  | reqAccounts
  | reqChainId
  | reqSwitchChain (target : String)
deriving DecidableEq

/-- Joint outcome of the `Promise.all` of the three read-only calls in
`loadContractReads`: either all three values, or the first rejection. -/
inductive ReadsOutcome where
  | ok (n : String) (sym : String) (p : Nat)
  | fail (e : JsError)
deriving DecidableEq

/-- Embeds `loadContractReads` (lines 111-139).  The `getSigner().catch` probe
and the three parallel reads are issued together; on success the cache is set
and two events are pushed, on failure the cache is untouched and exactly one
event is pushed. -/
def loadContractReads (s : St) (o : ReadsOutcome) : St × List Call :=
  if !s.hasProvider then (s, [])
  else
    match o with
    | .ok n sym p =>
        let s1 := { s with
                      collectionName := if n = "" then "—" else n
                      symbol := if sym = "" then "—" else sym
                      mintPriceWei := some p }
        let s2 := push ("Loaded contract: " ++ n ++ " (" ++ sym ++ ")") s1
        let s3 := push ("Mint price: " ++ formatEther p ++ " ETH") s2
        (s3, [Call.getSigner, Call.readName, Call.readSymbol, Call.readPrice])
    | .fail e =>
        (push ("Contract read failed: " ++ humanizeEthersError e) s,
         [Call.getSigner, Call.readName, Call.readSymbol, Call.readPrice])

/-- Resolution point of the `mint` body (lines 201-224): where the chain of
awaited calls succeeded or threw.  `p` is the value returned by the fresh
`MINT_PRICE()` read, `h` the hash of the submitted transaction, `bn` the
receipt block number. -/
inductive MintOutcome where
  | signerFail (e : JsError)
  | priceFail (e : JsError)
  | submitFail (p : Nat) (e : JsError)
  | waitFail (p : Nat) (h : String) (e : JsError)
  | noReceipt (p : Nat) (h : String)
  | success (p : Nat) (h : String) (bn : Nat)
deriving DecidableEq

/-- Embeds `mint` (lines 187-230): provider / connected / mainnet guards,
`setBusy(true)` and `setTxHash(null)`, fresh price read, payable
`mintOracleVision` submission with that price as value, immediate
`setTxHash`, receipt wait, `catch` with `humanizeEthersError`, and
`finally setBusy(false)`. -/
def mint (s : St) (o : MintOutcome) : St × List Call :=
  if !s.hasProvider then (s, [])
  else if !(isConnected s.account) then (push "Connect your wallet first." s, [])
  else if !(isMainnet s.chainId) then (push "Switch to Ethereum Mainnet first." s, [])
  else
    let s0 : St := { s with busy := true, txHash := none }
    match o with
    | .signerFail e =>
        ({ push ("Mint failed: " ++ humanizeEthersError e) s0 with busy := false },
         [Call.getSigner])
    | .priceFail e =>
        ({ push ("Mint failed: " ++ humanizeEthersError e) s0 with busy := false },
         [Call.getSigner, Call.readPrice])
    | .submitFail p e =>
        let s1 := push ("Minting… value = " ++ formatEther p ++ " ETH")
                    { s0 with mintPriceWei := some p }
        ({ push ("Mint failed: " ++ humanizeEthersError e) s1 with busy := false },
         [Call.getSigner, Call.readPrice, Call.submitMint p])
    | .waitFail p h e =>
        let s1 := push ("Minting… value = " ++ formatEther p ++ " ETH")
                    { s0 with mintPriceWei := some p }
        let s2 := push ("Tx sent: " ++ h) { s1 with txHash := some h }
        ({ push ("Mint failed: " ++ humanizeEthersError e) s2 with busy := false },
         [Call.getSigner, Call.readPrice, Call.submitMint p, Call.waitReceipt h])
    | .noReceipt p h =>
        let s1 := push ("Minting… value = " ++ formatEther p ++ " ETH")
                    { s0 with mintPriceWei := some p }
        let s2 := push ("Tx sent: " ++ h) { s1 with txHash := some h }
        ({ push "Tx sent, but receipt not found yet." s2 with busy := false },
         [Call.getSigner, Call.readPrice, Call.submitMint p, Call.waitReceipt h])
    | .success p h bn =>
        let s1 := push ("Minting… value = " ++ formatEther p ++ " ETH")
                    { s0 with mintPriceWei := some p }
        let s2 := push ("Tx sent: " ++ h) { s1 with txHash := some h }
        ({ push ("Success ✅ Block: " ++ toString bn) s2 with busy := false },
         [Call.getSigner, Call.readPrice, Call.submitMint p, Call.waitReceipt h])

/-- Outcome of the two wallet-state requests in `refreshWalletState`
(lines 99-109); failure is modelled at the first request. -/
inductive RefreshOutcome where
  | ok (accounts : List String) (cid : Option String)
  | fail (e : JsError)
deriving DecidableEq

/-- Embeds `refreshWalletState` (lines 99-109). -/
def refreshWalletState (s : St) (o : RefreshOutcome) : St × List Call :=
  if !s.hasProvider then (s, [])
  else
    match o with
    | .ok accs cid =>
        ({ s with account := accs.head?, chainId := cid },
         [Call.reqAccounts, Call.reqChainId])
    | .fail e =>
        (push ("refreshWalletState error: " ++ humanizeEthersError e) s,
         [Call.reqAccounts])

/-- Resolution point of the `connect` body (lines 141-167): the
`eth_requestAccounts` call, the `eth_chainId` call, then the nested
`loadContractReads`. -/
inductive ConnectOutcome where
  | reqFail (e : JsError)
  | cidFail (e : JsError)
  | ok (accounts : List String) (cid : Option String) (reads : ReadsOutcome)
deriving DecidableEq

/-- Embeds `connect` (lines 141-167). -/
def connect (s : St) (o : ConnectOutcome) : St × List Call :=
  if !s.hasProvider then (push "MetaMask not found." s, [])
  else
    let s0 : St := { s with busy := true }
    match o with
    | .reqFail e =>
        ({ push ("Connect failed: " ++ humanizeEthersError e) s0 with busy := false },
         [Call.reqAccounts])
    | .cidFail e =>
        ({ push ("Connect failed: " ++ humanizeEthersError e) s0 with busy := false },
         [Call.reqAccounts, Call.reqChainId])
    | .ok accs cid reads =>
        let s1 := { s0 with account := accs.head?, chainId := cid }
        let s2 := push ("Connected: " ++
                    (if truthy accs.head? then shortAddr accs.head? else "—")) s1
        let s3 := push ("Chain: " ++ cid.getD "—") s2
        let r := loadContractReads s3 reads
        ({ r.fst with busy := false },
         [Call.reqAccounts, Call.reqChainId] ++ r.snd)

/-- Resolution point of the `switchToMainnet` body (lines 169-185): the
switch request, then the nested `refreshWalletState` and
`loadContractReads` (both of which catch their own errors). -/
inductive SwitchOutcome where
  | fail (e : JsError)
  | ok (refresh : RefreshOutcome) (reads : ReadsOutcome)
deriving DecidableEq

/-- Embeds `switchToMainnet` (lines 169-185). -/
def switchToMainnet (s : St) (o : SwitchOutcome) : St × List Call :=
  if !s.hasProvider then (s, [])
  else
    let s0 : St := { s with busy := true }
    match o with
    | .fail e =>
        ({ push ("Switch failed: " ++ humanizeEthersError e) s0 with busy := false },
         [Call.reqSwitchChain "0x1"])
    | .ok r rd =>
        let s1 := push "Switched to Ethereum Mainnet." s0
        let r2 := refreshWalletState s1 r
        let r3 := loadContractReads r2.fst rd
        ({ r3.fst with busy := false },
         Call.reqSwitchChain "0x1" :: (r2.snd ++ r3.snd))

end MintConsole

namespace RawMint

/-- Configuration constant `MINT_PRICE_ETH = "0.01"` of
`src/app/mint/page.tsx` (line 11). -/
def MINT_PRICE_ETH : String := "0.01"

/-- Wei value attached by the raw mint: embeds
`Number(MINT_PRICE_ETH) * 1e18`, which is exactly `10 ^ 16`. -/
def mintValueWei : Nat := 10000000000000000

/-- React state of the raw-transaction `MintPage` in `src/app/mint/page.tsx`
(lines 31-36), plus the provider-presence flag and the counter clock. -/
structure St where
  hasProvider : Bool
  wallet : Option String
  network : Option String
  status : String
  logs : List String
  minting : Bool
  now : Nat
deriving DecidableEq

/-- Embeds `log` (lines 43-45): prepend the stamped message, keep the first
20 entries. -/
def log (msg : String) (s : St) : St :=
  { s with
      logs := ((toString s.now ++ " — " ++ msg) :: s.logs).take 20
      now := s.now + 1 }

/-- Provider interactions of the raw-transaction page.  `sendTransaction`
carries the attached wei value of the `eth_sendTransaction` submission. -/
inductive Call where
  | reqAccounts
  | reqChainId
  | sendTransaction (value : Nat)
deriving DecidableEq

/-- Resolution point of the `connectWallet` body (lines 56-78). -/
inductive ConnectOutcome where
  | ok (accounts : List String) (cid : String)
  | fail (msg : String)
deriving DecidableEq

/-- Embeds `connectWallet` (lines 56-78). -/
def connectWallet (s : St) (o : ConnectOutcome) : St × List Call :=
  if !s.hasProvider then ({ s with status := "MetaMask not detected" }, [])
  else
    match o with
    | .ok accs cid =>
        let s1 : St := { s with
                           wallet := accs.head?
                           network := some (if cid = "0x1" then "Ethereum Mainnet" else cid)
                           status := "Connected" }
        (log ("Wallet connected: " ++ accs.head?.getD "undefined") s1,
         [Call.reqAccounts, Call.reqChainId])
    | .fail m =>
        (log ("Connect failed: " ++ m) s, [Call.reqAccounts])

/-- Resolution of the `eth_sendTransaction` request in `mint`
(lines 92-102). -/
inductive MintOutcome where
  | ok
  | fail (msg : String)
deriving DecidableEq

/-- Embeds `mint` (lines 85-110): only provider presence and a truthy wallet
are checked — the recorded network is never consulted — then the
value-carrying `eth_sendTransaction` is submitted with the constant
configured price; its returned hash is discarded. -/
def mint (s : St) (o : MintOutcome) : St × List Call :=
  if !s.hasProvider || !(MintConsole.truthy s.wallet) then (s, [])
  else
    let s1 := log ("Minting… value = " ++ MINT_PRICE_ETH ++ " ETH")
                { s with minting := true }
    match o with
    | .ok =>
        ({ log "Mint transaction sent" s1 with minting := false },
         [Call.sendTransaction mintValueWei])
    | .fail m =>
        ({ log ("Mint failed: " ++ m) s1 with minting := false },
         [Call.sendTransaction mintValueWei])

end RawMint

namespace MultiSig

/-- Payable mint-call attempts of the multi-signature variant
(`src/app/mint/page.tsx`, third document), in cascade order. -/
inductive Attempt where
  | mintNoArg
  | mintQty
  | safeMintNoArg
  | safeMintTo
deriving DecidableEq

/-- Wei value attached to every attempt: `ethers.parseEther("0.01")`. -/
def mintValueWei : Nat := 10000000000000000

/-- Result of one payable attempt: a transaction handle or a thrown error
(the error itself is swallowed by the per-attempt `catch`). -/
inductive AttemptResult where
  | ok (hash : String)
  | err
deriving DecidableEq

/-- Embeds the four-step attempt cascade (lines 728-774): each attempt is
wrapped in `try/catch` setting `tx = null`, and the next attempt runs
whenever `tx` is still null. -/
def cascade (r1 r2 r3 r4 : AttemptResult) : List Attempt × Option String :=
  match r1 with
  | .ok h => ([Attempt.mintNoArg], some h)
  | .err =>
    match r2 with
    | .ok h => ([Attempt.mintNoArg, Attempt.mintQty], some h)
    | .err =>
      match r3 with
      | .ok h => ([Attempt.mintNoArg, Attempt.mintQty, Attempt.safeMintNoArg], some h)
      | .err =>
        match r4 with
        | .ok h =>
            ([Attempt.mintNoArg, Attempt.mintQty, Attempt.safeMintNoArg,
              Attempt.safeMintTo], some h)
        | .err =>
            ([Attempt.mintNoArg, Attempt.mintQty, Attempt.safeMintNoArg,
              Attempt.safeMintTo], none)

/-- React state of the multi-signature `MintPage` (third document,
lines 596-604 of the concatenated file). -/
structure St where
  hasProvider : Bool
  account : String
  chainId : Option Nat
  isMinting : Bool
  status : String
  lastTx : String
deriving DecidableEq

/-- Resolution of the `wallet_switchEthereumChain` request inside
`ensureMainnet` when the recorded chain is not mainnet. -/
inductive EnsureOutcome where
  | ok
  | fail (msg : String)
deriving DecidableEq

/-- Embeds `ensureMainnet` (lines 684-703): true immediately on chain 1,
otherwise a switch request whose failure sets the status and returns
false. -/
def ensureMainnet (s : St) (o : EnsureOutcome) : St × Bool :=
  if !s.hasProvider then (s, false)
  else if s.chainId = some 1 then (s, true)
  else
    match o with
    | .ok => ({ s with status := "Switching to Ethereum Mainnet…" }, true)
    | .fail m => ({ s with status := m }, false)

/-- Resolution of `tx.wait()` after a successful submission. -/
inductive WaitOutcome where
  | confirmed
  | reverted
  | threw (msg : String)
deriving DecidableEq

/-- Embeds `mint` of the multi-signature variant (lines 705-795): provider
and account guards, `ensureMainnet`, the four-attempt cascade, then hash
recording and receipt handling, with `finally setIsMinting(false)`.  The
returned list is the sequence of payable attempts actually issued. -/
def mint (s : St) (eo : EnsureOutcome) (r1 r2 r3 r4 : AttemptResult)
    (w : WaitOutcome) : St × List Attempt :=
  if !s.hasProvider then ({ s with status := "No wallet provider available." }, [])
  else if s.account = "" then ({ s with status := "Connect wallet first." }, [])
  else
    let e := ensureMainnet s eo
    if !e.snd then (e.fst, [])
    else
      let s2 : St := { e.fst with isMinting := true, status := "Preparing mint…", lastTx := "" }
      let c := cascade r1 r2 r3 r4
      match c.snd with
      | none =>
          ({ s2 with
               status := "Mint call failed. The contract may use a different mint function name/signature. Verify the ABI + contract address."
               isMinting := false }, c.fst)
      | some h =>
          let s3 : St := { s2 with lastTx := h, status := "Transaction sent. Waiting for confirmation…" }
          match w with
          | .confirmed =>
              ({ s3 with status := "Mint confirmed ✅ Clean receipt on Ethereum Mainnet.", isMinting := false }, c.fst)
          | .reverted =>
              ({ s3 with status := "Transaction failed or reverted.", isMinting := false }, c.fst)
          | .threw m =>
              ({ s3 with status := m, isMinting := false }, c.fst)

end MultiSig

/-! Helper lemmas shared by the claim theorems. -/

theorem take_cons_pos {α : Type} (a : α) (l : List α) (n : Nat) (h : 0 < n) :
    (a :: l).take n = a :: l.take (n - 1) := by
  cases n with
  | zero => omega
  | succ k => simp

theorem push_busy (m : String) (s : MintConsole.St) :
    (MintConsole.push m s).busy = s.busy := by
  simp [MintConsole.push]

theorem push_account (m : String) (s : MintConsole.St) :
    (MintConsole.push m s).account = s.account := by
  simp [MintConsole.push]

theorem push_chainId (m : String) (s : MintConsole.St) :
    (MintConsole.push m s).chainId = s.chainId := by
  simp [MintConsole.push]

theorem loadContractReads_busy (s : MintConsole.St) (o : MintConsole.ReadsOutcome) :
    (MintConsole.loadContractReads s o).fst.busy = s.busy := by
  cases o <;> simp [MintConsole.loadContractReads, MintConsole.push] <;> split <;> rfl

theorem connect_busy (s : MintConsole.St) (o : MintConsole.ConnectOutcome) :
    (MintConsole.connect s o).fst.busy = if s.hasProvider then false else s.busy := by
  by_cases hp : s.hasProvider = true
  · cases o <;> simp [MintConsole.connect, hp, MintConsole.push]
  · simp at hp
    cases o <;> simp [MintConsole.connect, hp, MintConsole.push]

theorem switchToMainnet_busy (s : MintConsole.St) (o : MintConsole.SwitchOutcome) :
    (MintConsole.switchToMainnet s o).fst.busy = if s.hasProvider then false else s.busy := by
  by_cases hp : s.hasProvider = true
  · cases o <;> simp [MintConsole.switchToMainnet, hp, MintConsole.push]
  · simp at hp
    cases o <;> simp [MintConsole.switchToMainnet, hp, MintConsole.push]

theorem mint_busy (s : MintConsole.St) (o : MintConsole.MintOutcome) :
    (MintConsole.mint s o).fst.busy =
      if s.hasProvider && MintConsole.isConnected s.account &&
         MintConsole.isMainnet s.chainId then false else s.busy := by
  by_cases hp : s.hasProvider = true
  · by_cases hc : MintConsole.isConnected s.account = true
    · by_cases hm : MintConsole.isMainnet s.chainId = true
      · cases o <;> simp [MintConsole.mint, hp, hc, hm, MintConsole.push]
      · simp at hm
        cases o <;> simp [MintConsole.mint, hp, hc, hm, MintConsole.push]
    · simp at hc
      cases o <;> simp [MintConsole.mint, hp, hc, MintConsole.push]
  · simp at hp
    cases o <;> simp [MintConsole.mint, hp]

/-! Claim theorems. -/

/-- C6: the status-event log is an append-only ring buffer.  After every
append the `part_001` log has at most 30 entries and the raw-mint page log
at most 20 (both bounds inside the stated 20-30 range), the newest entry is
at the head, and the remainder is exactly the previous log truncated at the
oldest end — so existing entries are never modified, only dropped from the
oldest end. -/
theorem C6_log_ring_buffer :
    ∀ (s : MintConsole.St) (m : String) (s2 : RawMint.St) (m2 : String),
      ((MintConsole.push m s).log).length ≤ 30 ∧
      ((MintConsole.push m s).log).head? = some (⟨s.now, m⟩ : MintConsole.Entry) ∧
      ((MintConsole.push m s).log).tail = s.log.take 29 ∧
      ((RawMint.log m2 s2).logs).length ≤ 20 ∧
      ((RawMint.log m2 s2).logs).head? = some (toString s2.now ++ " — " ++ m2) ∧
      ((RawMint.log m2 s2).logs).tail = s2.logs.take 19 := by
  intro s m s2 m2
  have h30 := take_cons_pos (⟨s.now, m⟩ : MintConsole.Entry) s.log 30 (by norm_num)
  have h20 := take_cons_pos (toString s2.now ++ " — " ++ m2) s2.logs 20 (by norm_num)
  refine ⟨?_, ?_, ?_, ?_, ?_, ?_⟩ <;>
    simp [MintConsole.push, RawMint.log, h30, h20, List.length_take]

/-- C9: every operation of `part_001` that sets the busy flag — `connect`,
`switchToMainnet`, `mint` — leaves it false on every exit path reached after
setting it (success, thrown error, or user rejection), and otherwise leaves
it untouched, so no outcome can leave the controller permanently busy. -/
theorem C9_busy_cleared_on_every_exit :
    ∀ (s : MintConsole.St) (oc : MintConsole.ConnectOutcome)
      (os : MintConsole.SwitchOutcome) (om : MintConsole.MintOutcome),
      ((MintConsole.connect s oc).fst.busy = if s.hasProvider then false else s.busy) ∧
      ((MintConsole.switchToMainnet s os).fst.busy = if s.hasProvider then false else s.busy) ∧
      ((MintConsole.mint s om).fst.busy =
        if s.hasProvider && MintConsole.isConnected s.account &&
           MintConsole.isMainnet s.chainId then false else s.busy) := by
  intro s oc os om
  exact ⟨connect_busy s oc, switchToMainnet_busy s os, mint_busy s om⟩

/-- C10: the chain comparison lowercases the hex chain id, so any string
whose lowercase form is `0x1` (for example `0X1`) counts as the required
chain for the readiness status and lets `mint` pass its chain gate through
to the provider calls. -/
theorem C10_chain_comparison_case_insensitive :
    ∀ (cid : String) (s : MintConsole.St) (p bn : Nat) (h : String),
      MintConsole.toLowerStr cid = "0x1" →
      s.hasProvider = true →
      MintConsole.isConnected s.account = true →
      s.chainId = some cid →
      MintConsole.isMainnet (some cid) = true ∧
      MintConsole.statusText s = "Ready (ETH mainnet)" ∧
      (MintConsole.mint s (.success p h bn)).snd =
        [MintConsole.Call.getSigner, MintConsole.Call.readPrice,
         MintConsole.Call.submitMint p, MintConsole.Call.waitReceipt h] := by
  intro cid s p bn h hlow hp hc hcid
  have hm : MintConsole.isMainnet (some cid) = true := by
    simp [MintConsole.isMainnet, hlow]
  refine ⟨hm, ?_, ?_⟩
  · simp [MintConsole.statusText, hp, hc, hcid, hm]
  · simp [MintConsole.mint, hp, hc, hcid, hm]

/-- Concrete state for the C10 witness: provider present, connected, chain
recorded with the uppercase hex form `0X1`. -/
def c10state : MintConsole.St :=
  ⟨true, some "0xAbC", some "0X1", "—", "—", some 5, false, none, [], 0⟩

/-- Witness for C10 at the uppercase chain id `0X1`. -/
theorem C10_chain_comparison_case_insensitive_witness :
    MintConsole.toLowerStr "0X1" = "0x1" ∧
    MintConsole.isMainnet (some "0X1") = true ∧
    MintConsole.statusText c10state = "Ready (ETH mainnet)" ∧
    (MintConsole.mint c10state (.success 5 "0xh" 1)).snd =
      [MintConsole.Call.getSigner, MintConsole.Call.readPrice,
       MintConsole.Call.submitMint 5, MintConsole.Call.waitReceipt "0xh"] := by
  have h := C10_chain_comparison_case_insensitive "0X1" c10state 5 1 "0xh"
    (by decide) (by decide) (by decide) (by decide)
  exact ⟨by decide, h.1, h.2.1, h.2.2⟩

/-- Fresh raw-mint page state used by the C1 counterexample. -/
def c1state : RawMint.St := ⟨true, none, none, "Not connected", [], false, 0⟩

/-- Counterexample to C1 as stated: after connecting on chain `0x5`, the
raw-transaction `mint` of `src/app/mint/page.tsx` (lines 85-110) submits the
value-carrying `eth_sendTransaction` even though the recorded network is not
the required chain — it performs no chain check at all. -/
theorem C1_wrong_chain_payable_counterexample :
    (RawMint.connectWallet c1state (.ok ["0xAbCDef0123456789"] "0x5")).fst.network =
      some "0x5" ∧
    some "0x5" ≠ some "0x1" ∧
    (RawMint.mint (RawMint.connectWallet c1state
        (.ok ["0xAbCDef0123456789"] "0x5")).fst .ok).snd =
      [RawMint.Call.sendTransaction 10000000000000000] ∧
    (0 : Nat) < 10000000000000000 := by decide

/-- C1 amended: the guarantee holds for the `part_001` controller.  Its
`mint` never issues any provider call — in particular no payable submission —
while the recorded chain id is not (case-insensitively) `0x1`; on a wrong
chain it returns unchanged or after exactly one status event. -/
theorem C1_amended_controller_no_payable_on_wrong_chain :
    ∀ (s : MintConsole.St) (o : MintConsole.MintOutcome),
      MintConsole.isMainnet s.chainId = false →
      (MintConsole.mint s o).snd = [] ∧
      ((MintConsole.mint s o).fst = s ∨
       (MintConsole.mint s o).fst = MintConsole.push "Connect your wallet first." s ∨
       (MintConsole.mint s o).fst = MintConsole.push "Switch to Ethereum Mainnet first." s) := by
  intro s o hm
  by_cases hp : s.hasProvider = true
  · by_cases hc : MintConsole.isConnected s.account = true
    · exact ⟨by simp [MintConsole.mint, hp, hc, hm],
             Or.inr (Or.inr (by simp [MintConsole.mint, hp, hc, hm]))⟩
    · simp at hc
      exact ⟨by simp [MintConsole.mint, hp, hc],
             Or.inr (Or.inl (by simp [MintConsole.mint, hp, hc]))⟩
  · simp at hp
    exact ⟨by simp [MintConsole.mint, hp], Or.inl (by simp [MintConsole.mint, hp])⟩

/-- Controller state on the wrong chain `0x5` for the C1 witness. -/
def c1wstate : MintConsole.St :=
  ⟨true, some "0xAbC", some "0x5", "—", "—", some 5, false, none, [], 0⟩

/-- Witness for the amended C1 at a concrete wrong-chain state. -/
theorem C1_amended_controller_no_payable_on_wrong_chain_witness :
    MintConsole.isMainnet c1wstate.chainId = false ∧
    (MintConsole.mint c1wstate (.success 5 "0xh" 1)).snd = [] ∧
    (MintConsole.mint c1wstate (.success 5 "0xh" 1)).fst =
      MintConsole.push "Switch to Ethereum Mainnet first." c1wstate := by
  have h := C1_amended_controller_no_payable_on_wrong_chain c1wstate
    (.success 5 "0xh" 1) (by decide)
  exact ⟨by decide, h.1, by decide⟩

/-- Controller state violating the in-flight and cached-price preconditions
while connected on mainnet, used by the C2 counterexample. -/
def c2state : MintConsole.St :=
  ⟨true, some "0xAbC", some "0x1", "—", "—", none, true, none, [], 0⟩

/-- Counterexample to C2 as stated: with an attempt already in flight
(`busy = true`) and no cached price, a direct `mint()` call does not fail
fast — it performs four provider interactions including the payable
submission, and emits no precondition status. -/
theorem C2_unchecked_preconditions_counterexample :
    c2state.busy = true ∧
    c2state.mintPriceWei = none ∧
    (MintConsole.mint c2state (.success 7 "0xh" 1)).snd =
      [MintConsole.Call.getSigner, MintConsole.Call.readPrice,
       MintConsole.Call.submitMint 7, MintConsole.Call.waitReceipt "0xh"] ∧
    (MintConsole.mint c2state (.success 7 "0xh" 1)).snd ≠ [] := by decide

/-- C2 amended: `mint()` itself checks only the connected and correct-network
preconditions, failing fast with a descriptive status and zero provider
calls; the no-attempt-in-flight and cached-price preconditions are enforced
solely by the mint button's `disabled` expression, whose enabled state
implies all four preconditions. -/
theorem C2_amended_preconditions :
    ∀ (s : MintConsole.St) (o : MintConsole.MintOutcome),
      s.hasProvider = true →
      (MintConsole.isConnected s.account = false →
        MintConsole.mint s o = (MintConsole.push "Connect your wallet first." s, [])) ∧
      (MintConsole.isConnected s.account = true →
        MintConsole.isMainnet s.chainId = false →
        MintConsole.mint s o = (MintConsole.push "Switch to Ethereum Mainnet first." s, [])) ∧
      (MintConsole.mintButtonDisabled s = false →
        MintConsole.isConnected s.account = true ∧
        MintConsole.isMainnet s.chainId = true ∧
        s.busy = false ∧
        s.mintPriceWei.isSome = true) := by
  intro s o hp
  refine ⟨?_, ?_, ?_⟩
  · intro hc
    simp [MintConsole.mint, hp, hc]
  · intro hc hm
    simp [MintConsole.mint, hp, hc, hm]
  · intro hd
    simp [MintConsole.mintButtonDisabled] at hd
    exact ⟨hd.1.1.1, hd.1.1.2, hd.1.2, hd.2⟩

/-- Controller state that is not connected, used by the C2 witness. -/
def c2wstate : MintConsole.St :=
  ⟨true, none, some "0x1", "—", "—", some 5, false, none, [], 0⟩

/-- Witness for the amended C2: a not-connected `mint()` call fails fast with
the descriptive status and zero provider calls. -/
theorem C2_amended_preconditions_witness :
    c2wstate.hasProvider = true ∧
    MintConsole.mint c2wstate (.success 5 "0xh" 1) =
      (MintConsole.push "Connect your wallet first." c2wstate, []) := by
  exact ⟨by decide,
    (C2_amended_preconditions c2wstate (.success 5 "0xh" 1) (by decide)).1 (by decide)⟩

/-- Fresh raw-mint page state used by the C3 counterexample. -/
def c3state : RawMint.St := ⟨true, none, none, "Not connected", [], false, 0⟩

/-- Counterexample to C3 as stated: on the success path of the
raw-transaction `mint` of `src/app/mint/page.tsx` (lines 85-110), the only
provider interaction is the payable send itself — no price read precedes
it — the attached value is the fixed configuration constant, and the
returned transaction identifier is discarded: the newest log line after
success is the bare `Mint transaction sent` with no identifier and the page
state holds no transaction field. -/
theorem C3_no_fresh_price_no_hash_counterexample :
    (RawMint.mint (RawMint.connectWallet c3state
        (.ok ["0xAbCDef0123456789"] "0x1")).fst .ok).snd =
      [RawMint.Call.sendTransaction 10000000000000000] ∧
    RawMint.mintValueWei = 10000000000000000 ∧
    (RawMint.mint (RawMint.connectWallet c3state
        (.ok ["0xAbCDef0123456789"] "0x1")).fst .ok).fst.logs.head? =
      some "2 — Mint transaction sent" := by decide

/-- C3 amended: the stated behaviour holds for the `part_001` controller.
On its success path the price is freshly read, the payable submission
carries exactly that freshly read price as value, the cache is updated to
it, the transaction hash is recorded, and the hash is recorded immediately
after submission — it is present even when the receipt wait fails or finds
no receipt. -/
theorem C3_amended_fresh_price_and_early_hash :
    ∀ (s : MintConsole.St) (p bn : Nat) (h : String) (e : MintConsole.JsError),
      s.hasProvider = true →
      MintConsole.isConnected s.account = true →
      MintConsole.isMainnet s.chainId = true →
      ((MintConsole.mint s (.success p h bn)).snd =
        [MintConsole.Call.getSigner, MintConsole.Call.readPrice,
         MintConsole.Call.submitMint p, MintConsole.Call.waitReceipt h] ∧
       (MintConsole.mint s (.success p h bn)).fst.mintPriceWei = some p ∧
       (MintConsole.mint s (.success p h bn)).fst.txHash = some h) ∧
      (MintConsole.mint s (.waitFail p h e)).fst.txHash = some h ∧
      (MintConsole.mint s (.noReceipt p h)).fst.txHash = some h := by
  intro s p bn h e hp hc hm
  refine ⟨⟨?_, ?_, ?_⟩, ?_, ?_⟩ <;>
    simp [MintConsole.mint, hp, hc, hm, MintConsole.push]

/-- Ready controller state used by the C3 witness. -/
def c3wstate : MintConsole.St :=
  ⟨true, some "0xAbC", some "0x1", "—", "—", some 5, false, none, [], 0⟩

/-- Witness for the amended C3 at a concrete ready state: price 7 is freshly
read and attached, hash recorded before confirmation. -/
theorem C3_amended_fresh_price_and_early_hash_witness :
    c3wstate.hasProvider = true ∧
    (MintConsole.mint c3wstate (.success 7 "0xh" 1)).snd =
      [MintConsole.Call.getSigner, MintConsole.Call.readPrice,
       MintConsole.Call.submitMint 7, MintConsole.Call.waitReceipt "0xh"] ∧
    (MintConsole.mint c3wstate (.success 7 "0xh" 1)).fst.mintPriceWei = some 7 ∧
    (MintConsole.mint c3wstate
      (.waitFail 7 "0xh" ⟨none, none, none, some "boom", "boom"⟩)).fst.txHash = some "0xh" := by
  have h := C3_amended_fresh_price_and_early_hash c3wstate 7 1 "0xh"
    ⟨none, none, none, some "boom", "boom"⟩ (by decide) (by decide) (by decide)
  exact ⟨by decide, h.1.1, h.1.2.1, h.2.1⟩

/-- C4: when the joint read of name, symbol and price fails,
`loadContractReads` leaves all three cache fields exactly as they were,
appends exactly one status event describing the failure (the stated list
equation fixes the whole log), and the three read-only calls were still
issued together as one parallel batch. -/
theorem C4_reads_failure_leaves_cache_untouched :
    ∀ (s : MintConsole.St) (e : MintConsole.JsError),
      s.hasProvider = true →
      ((MintConsole.loadContractReads s (.fail e)).fst.collectionName = s.collectionName ∧
       (MintConsole.loadContractReads s (.fail e)).fst.symbol = s.symbol ∧
       (MintConsole.loadContractReads s (.fail e)).fst.mintPriceWei = s.mintPriceWei) ∧
      (MintConsole.loadContractReads s (.fail e)).fst.log =
        ((⟨s.now, "Contract read failed: " ++ MintConsole.humanizeEthersError e⟩ :
            MintConsole.Entry) :: s.log).take 30 ∧
      (MintConsole.loadContractReads s (.fail e)).snd =
        [MintConsole.Call.getSigner, MintConsole.Call.readName,
         MintConsole.Call.readSymbol, MintConsole.Call.readPrice] := by
  intro s e hp
  refine ⟨⟨?_, ?_, ?_⟩, ?_, ?_⟩ <;>
    simp [MintConsole.loadContractReads, hp, MintConsole.push]

/-- Concrete populated cache state used by the C4 witness. -/
def c4wstate : MintConsole.St :=
  ⟨true, some "0xAbC", some "0x1", "Oracle Vision", "OV", some 5, false, none, [], 0⟩

/-- Witness for C4: a failed refresh leaves the populated cache intact and
appends exactly the one failure event. -/
theorem C4_reads_failure_leaves_cache_untouched_witness :
    c4wstate.hasProvider = true ∧
    (MintConsole.loadContractReads c4wstate
        (.fail ⟨none, none, none, some "network down", "network down"⟩)).fst.collectionName =
      "Oracle Vision" ∧
    (MintConsole.loadContractReads c4wstate
        (.fail ⟨none, none, none, some "network down", "network down"⟩)).fst.mintPriceWei =
      some 5 ∧
    (MintConsole.loadContractReads c4wstate
        (.fail ⟨none, none, none, some "network down", "network down"⟩)).fst.log =
      [⟨0, "Contract read failed: network down"⟩] := by
  have h := C4_reads_failure_leaves_cache_untouched c4wstate
    ⟨none, none, none, some "network down", "network down"⟩ (by decide)
  exact ⟨by decide, h.1.1, h.1.2.2, by decide⟩

/-- Ready controller state with cached price 5, used by the C5
counterexample. -/
def c5state : MintConsole.St :=
  ⟨true, some "0xAbC", some "0x1", "Oracle Vision", "OV", some 5, false, none, [], 0⟩

/-- Error value carrying the MetaMask user-rejection code 4001. -/
def c5err : MintConsole.JsError := ⟨some 4001, none, none, some "MetaMask denied", "err"⟩

/-- Counterexample to C5 as stated: the user rejects (code 4001) at the
payable submission, the attempt fails with the exact surfaced reason — but
the cached price does not remain unchanged: `mint` already re-read the
price (7) and overwrote the cache (previously 5) before prompting for the
signature. -/
theorem C5_cached_price_changes_counterexample :
    c5state.mintPriceWei = some 5 ∧
    (MintConsole.mint c5state (.submitFail 7 c5err)).fst.mintPriceWei = some 7 ∧
    (some 7 : Option Nat) ≠ some 5 ∧
    (MintConsole.mint c5state (.submitFail 7 c5err)).fst.log.head? =
      some (⟨1, "Mint failed: User rejected the transaction."⟩ : MintConsole.Entry) := by
  decide

/-- C5 amended: on a provider rejection of the submission with code 4001 or
a textual user-rejected message, the attempt fails with the newest event
`Mint failed: User rejected the transaction.` (the surfaced reason is
exactly the user-rejection string), the busy flag is cleared, the cached
price equals the freshly re-read price (so it changes whenever that differs
from the previous cache), and a subsequent `mint()` is permitted — the mint
button is enabled again. -/
theorem C5_amended_user_rejection :
    ∀ (s : MintConsole.St) (p : Nat) (e : MintConsole.JsError),
      s.hasProvider = true →
      MintConsole.isConnected s.account = true →
      MintConsole.isMainnet s.chainId = true →
      (e.code = some 4001 ∨ MintConsole.containsUserRejected (MintConsole.errMsg e) = true) →
      (MintConsole.mint s (.submitFail p e)).fst.log.head? =
        some (⟨s.now + 1, "Mint failed: User rejected the transaction."⟩ : MintConsole.Entry) ∧
      (MintConsole.mint s (.submitFail p e)).fst.busy = false ∧
      (MintConsole.mint s (.submitFail p e)).fst.mintPriceWei = some p ∧
      MintConsole.mintButtonDisabled (MintConsole.mint s (.submitFail p e)).fst = false := by
  intro s p e hp hc hm h4
  have hh : MintConsole.humanizeEthersError e = "User rejected the transaction." := by
    rcases h4 with h | h
    · simp [MintConsole.humanizeEthersError, h]
    · by_cases hc4 : e.code = some 4001
      · simp [MintConsole.humanizeEthersError, hc4]
      · simp [MintConsole.humanizeEthersError, hc4, h]
  refine ⟨?_, ?_, ?_, ?_⟩ <;>
    simp [MintConsole.mint, hp, hc, hm, hh, MintConsole.push,
      MintConsole.mintButtonDisabled, take_cons_pos, hc, hm]

/-- Ready controller state with cached price 5, used by the C5 witness. -/
def c5wstate : MintConsole.St :=
  ⟨true, some "0xAbC", some "0x1", "Oracle Vision", "OV", some 5, false, none, [], 0⟩

/-- Witness for the amended C5 at a concrete 4001 rejection. -/
theorem C5_amended_user_rejection_witness :
    c5wstate.hasProvider = true ∧
    (MintConsole.mint c5wstate
        (.submitFail 7 ⟨some 4001, none, none, some "denied", "err"⟩)).fst.log.head? =
      some (⟨1, "Mint failed: User rejected the transaction."⟩ : MintConsole.Entry) ∧
    (MintConsole.mint c5wstate
        (.submitFail 7 ⟨some 4001, none, none, some "denied", "err"⟩)).fst.busy = false ∧
    MintConsole.mintButtonDisabled
      (MintConsole.mint c5wstate
        (.submitFail 7 ⟨some 4001, none, none, some "denied", "err"⟩)).fst = false := by
  have h := C5_amended_user_rejection c5wstate 7
    ⟨some 4001, none, none, some "denied", "err"⟩
    (by decide) (by decide) (by decide) (Or.inl (by decide))
  exact ⟨by decide, h.1, h.2.1, h.2.2.2⟩

/-- Fresh ready controller state with an empty log, used by the C7
counterexample. -/
def c7state : MintConsole.St :=
  ⟨true, some "0xAbC", some "0x1", "—", "—", none, false, none, [], 0⟩

/-- State after one successful `loadContractReads` on `c7state`. -/
def c7once : MintConsole.St :=
  (MintConsole.loadContractReads c7state (.ok "Oracle Vision" "OV" 5)).fst

/-- State after a second successful `loadContractReads` with identical
underlying data. -/
def c7twice : MintConsole.St :=
  (MintConsole.loadContractReads c7once (.ok "Oracle Vision" "OV" 5)).fst

/-- Counterexample to C7 as stated: two refreshes over identical underlying
data do produce an identical cache, but they append four status events —
each successful call pushes both a `Loaded contract` and a `Mint price`
event — not the claimed exactly two. -/
theorem C7_four_events_counterexample :
    (c7twice.collectionName = c7once.collectionName ∧
     c7twice.symbol = c7once.symbol ∧
     c7twice.mintPriceWei = c7once.mintPriceWei) ∧
    c7twice.log.length = 4 ∧
    ¬(c7twice.log.length = 2) := by decide

/-- C7 amended: calling `refreshReads()` twice with identical underlying
data yields an identical cache after each call, and appends exactly two
status events per call — four in total — as long as the ring bound is not
hit. -/
theorem C7_amended_idempotent_cache_two_events_per_call :
    ∀ (s : MintConsole.St) (n sym : String) (p : Nat),
      s.hasProvider = true →
      s.log.length + 4 ≤ 30 →
      ((MintConsole.loadContractReads (MintConsole.loadContractReads s
          (.ok n sym p)).fst (.ok n sym p)).fst.collectionName =
        (MintConsole.loadContractReads s (.ok n sym p)).fst.collectionName ∧
       (MintConsole.loadContractReads (MintConsole.loadContractReads s
          (.ok n sym p)).fst (.ok n sym p)).fst.symbol =
        (MintConsole.loadContractReads s (.ok n sym p)).fst.symbol ∧
       (MintConsole.loadContractReads (MintConsole.loadContractReads s
          (.ok n sym p)).fst (.ok n sym p)).fst.mintPriceWei =
        (MintConsole.loadContractReads s (.ok n sym p)).fst.mintPriceWei) ∧
      (MintConsole.loadContractReads s (.ok n sym p)).fst.log.length =
        s.log.length + 2 ∧
      (MintConsole.loadContractReads (MintConsole.loadContractReads s
          (.ok n sym p)).fst (.ok n sym p)).fst.log.length =
        s.log.length + 4 := by
  intro s n sym p hp hlen
  refine ⟨⟨?_, ?_, ?_⟩, ?_, ?_⟩ <;>
    simp [MintConsole.loadContractReads, hp, MintConsole.push, List.length_take] <;>
    omega

/-- Fresh ready controller state with an empty log, used by the C7
witness. -/
def c7wstate : MintConsole.St :=
  ⟨true, some "0xAbC", some "0x1", "—", "—", none, false, none, [], 0⟩

/-- Witness for the amended C7 at concrete contract data. -/
theorem C7_amended_idempotent_cache_two_events_per_call_witness :
    c7wstate.hasProvider = true ∧
    c7wstate.log.length + 4 ≤ 30 ∧
    (MintConsole.loadContractReads (MintConsole.loadContractReads c7wstate
        (.ok "Oracle Vision" "OV" 5)).fst (.ok "Oracle Vision" "OV" 5)).fst.mintPriceWei =
      (MintConsole.loadContractReads c7wstate
        (.ok "Oracle Vision" "OV" 5)).fst.mintPriceWei ∧
    (MintConsole.loadContractReads c7wstate (.ok "Oracle Vision" "OV" 5)).fst.log.length =
      c7wstate.log.length + 2 ∧
    (MintConsole.loadContractReads (MintConsole.loadContractReads c7wstate
        (.ok "Oracle Vision" "OV" 5)).fst (.ok "Oracle Vision" "OV" 5)).fst.log.length =
      c7wstate.log.length + 4 := by
  have h := C7_amended_idempotent_cache_two_events_per_call c7wstate
    "Oracle Vision" "OV" 5 (by decide) (by decide)
  exact ⟨by decide, by decide, h.1.2.2, h.2.1, h.2.2⟩

/-- C8: in the multi-signature variant, an error thrown by the first payable
attempt — the per-attempt `catch` never inspects it, so an explicit user
rejection is swallowed like any other error — does not terminate the
attempt: the second signature (`mint(1)`) is still issued, and when all
four signatures error the full cascade `mint()`, `mint(1)`, `safeMint()`,
`safeMint(address)` has been issued before the failure status is
reported. -/
theorem C8_first_error_triggers_more_attempts :
    ∀ (s : MultiSig.St) (eo : MultiSig.EnsureOutcome)
      (r2 r3 r4 : MultiSig.AttemptResult) (w : MultiSig.WaitOutcome),
      s.hasProvider = true →
      s.account ≠ "" →
      s.chainId = some 1 →
      MultiSig.Attempt.mintQty ∈
        (MultiSig.mint s eo MultiSig.AttemptResult.err r2 r3 r4 w).snd ∧
      (MultiSig.mint s eo MultiSig.AttemptResult.err MultiSig.AttemptResult.err
          MultiSig.AttemptResult.err MultiSig.AttemptResult.err w).snd =
        [MultiSig.Attempt.mintNoArg, MultiSig.Attempt.mintQty,
         MultiSig.Attempt.safeMintNoArg, MultiSig.Attempt.safeMintTo] ∧
      (MultiSig.mint s eo MultiSig.AttemptResult.err MultiSig.AttemptResult.err
          MultiSig.AttemptResult.err MultiSig.AttemptResult.err w).fst.status =
        "Mint call failed. The contract may use a different mint function name/signature. Verify the ABI + contract address." ∧
      (MultiSig.mint s eo MultiSig.AttemptResult.err MultiSig.AttemptResult.err
          MultiSig.AttemptResult.err MultiSig.AttemptResult.err w).fst.isMinting = false := by
  intro s eo r2 r3 r4 w hp ha hcid
  refine ⟨?_, ?_, ?_, ?_⟩ <;>
    cases r2 <;> cases r3 <;> cases r4 <;> cases w <;>
      simp [MultiSig.mint, MultiSig.ensureMainnet, MultiSig.cascade, hp, ha, hcid]

/-- Connected mainnet state of the multi-signature variant, used by the C8
witness. -/
def c8wstate : MultiSig.St := ⟨true, "0xAbC", some 1, false, "Connected", ""⟩

/-- Witness for C8: with every signature erroring (for example a user
rejection on each prompt), all four payable attempts are issued and the
failure status is reported only afterwards. -/
theorem C8_first_error_triggers_more_attempts_witness :
    c8wstate.hasProvider = true ∧
    (MultiSig.mint c8wstate MultiSig.EnsureOutcome.ok MultiSig.AttemptResult.err
        MultiSig.AttemptResult.err MultiSig.AttemptResult.err MultiSig.AttemptResult.err
        MultiSig.WaitOutcome.confirmed).snd =
      [MultiSig.Attempt.mintNoArg, MultiSig.Attempt.mintQty,
       MultiSig.Attempt.safeMintNoArg, MultiSig.Attempt.safeMintTo] ∧
    (MultiSig.mint c8wstate MultiSig.EnsureOutcome.ok MultiSig.AttemptResult.err
        MultiSig.AttemptResult.err MultiSig.AttemptResult.err MultiSig.AttemptResult.err
        MultiSig.WaitOutcome.confirmed).fst.isMinting = false := by
  have h := C8_first_error_triggers_more_attempts c8wstate MultiSig.EnsureOutcome.ok
    MultiSig.AttemptResult.err MultiSig.AttemptResult.err MultiSig.AttemptResult.err
    MultiSig.WaitOutcome.confirmed (by decide) (by decide) (by decide)
  exact ⟨by decide, h.2.1, h.2.2.2⟩
